import Mathlib

/-!
# Verification of the inventory service's add-item-to-order workflow

A shallow embedding of the order-mutation workflow of the inventory service
(`app/application/use_cases/add_item_to_order.py`), its repository layer
(`app/infrastructure/database/repositories.py`, modelled as an in-memory
store), its exception hierarchy (`app/infrastructure/exceptions.py`) and the
HTTP endpoint (`app/presentation/api/v1/endpoints/orders.py`).

Conventions of the embedding:
* Python `int` is `ℤ`; `Decimal` is `ℚ` (exact fixed-point values embed
  exactly into `ℚ`); Python `float` values are modelled as the rationals
  exactly representable as IEEE-754 binary64 numbers, with `fl` performing
  round-to-nearest-even (normal range; the magnitudes handled by the service
  fit `Numeric(10, 2)` / `Numeric(12, 2)` columns, far inside that range).
* Entity timestamps (`created_at` / `updated_at`) and fields never read by
  the workflow (`Category`, `Client`, `category_id`) are omitted.
* The relational store is an in-memory `DB`: one list per table, plus the
  autoincrement counter for `order_items`; each repository method from
  `repositories.py` becomes a function on `DB`, returning what the Python
  method returns (`rowcount > 0` becomes "some row matched").
* Python exceptions become an `Except` result.  Raising leaves all state as
  it was at the raise point, which the state threading reproduces.
* Writing to the `Numeric(12, 2)` `orders.total_amount` column rounds the
  value to two decimal places (`quantize2`), as the PostgreSQL backend does;
  the other decimal columns only ever receive scale-2 values in the
  workflow (`unit_price` is copied from a stored `Numeric(10, 2)` price), so
  their quantization is the identity and is not modelled.
-/

namespace InventoryService

/-- Entity `Item` of `app/domain/entities.py`: identity, name, stock on hand, price. -/
structure Item where
  id : ℤ
  name : String
  quantity : ℤ
  price : ℚ
deriving DecidableEq

/-- Entity `Order` of `app/domain/entities.py`: identity, client, status, derived total. -/
structure Order where
  id : ℤ
  client_id : ℤ
  status : String
  total_amount : ℚ
deriving DecidableEq

/-- Entity `OrderItem` of `app/domain/entities.py`: one order line; `unit_price` is the
price snapshot taken when the line is created. -/
structure OrderItem where
  id : ℤ
  order_id : ℤ
  item_id : ℤ
  quantity : ℤ
  unit_price : ℚ
deriving DecidableEq

/-- Entity `AddItemToOrderRequest` of `app/domain/entities.py`. -/
structure AddItemToOrderRequest where
  order_id : ℤ
  item_id : ℤ
  quantity : ℤ
deriving DecidableEq

/-- Entity `AddItemToOrderResponse` of `app/domain/entities.py`. -/
structure AddItemToOrderResponse where
  success : Bool
  message : String
  order_item_id : Option ℤ
deriving DecidableEq

/-- Exceptions of `app/infrastructure/exceptions.py`: the `BusinessException` hierarchy and
its relevant subclasses, plus `otherError` for any Python exception outside
that hierarchy.  Each carries its message (`str(e)`). -/
inductive PyErr where
  | orderNotFound (msg : String)
  | itemNotFound (msg : String)
  | insufficientStock (msg : String)
  | businessError (msg : String)
  | otherError (msg : String)
deriving DecidableEq

/-- The message carried by an exception (`str(e)` in Python). -/
def PyErr.msg : PyErr → String
  | .orderNotFound m => m
  | .itemNotFound m => m
  | .insufficientStock m => m
  | .businessError m => m
  | .otherError m => m

/-- Test `isinstance(e, BusinessException)`: every constructor except `otherError`
is a subclass of `BusinessException`. -/
def PyErr.isBusiness : PyErr → Bool
  | .otherError _ => false
  | _ => true

deriving instance DecidableEq for Except

/-- Whether an `Except` result is a success. -/
def resultOk {ε α : Type} : Except ε α → Bool
  | .ok _ => true
  | .error _ => false

/-! ## IEEE-754 binary64 model

`AddItemToOrderUseCase._calculate_order_total` computes
`sum(oi.quantity * float(oi.unit_price) for oi in order_items)`, i.e. it
converts every `Decimal` unit price to a binary64 float and sums in float
arithmetic.  `fl` is round-to-nearest-even to 53 significant bits (normal
range, unbounded exponent — exact for every magnitude the service stores,
which fits `Numeric` columns far inside the binary64 normal range).

All arithmetic below is written on raw numerators and denominators with
`Rat.divInt`, so that the kernel can evaluate it on concrete inputs (the
library's `Rat.add`/`Rat.mul` are irreducible); `qAdd`/`qMul` are proved
equal to `+`/`*` below. -/

/-- Exact rational addition, in an executable form. -/
def qAdd (x y : ℚ) : ℚ :=
  Rat.divInt (x.num * (y.den : ℤ) + y.num * (x.den : ℤ)) ((x.den : ℤ) * (y.den : ℤ))

/-- Exact rational multiplication, in an executable form. -/
def qMul (x y : ℚ) : ℚ :=
  Rat.divInt (x.num * y.num) ((x.den : ℤ) * (y.den : ℤ))

/-- Scale the positive fraction `a / b` into the binade `[2^52, 2^53)`,
keeping track of the binary exponent; structural fuel recursion so that the
kernel can evaluate it. -/
def flScale : ℕ → ℕ → ℕ → ℤ → ℕ × ℕ × ℤ
  | 0, a, b, e => (a, b, e)
  | fuel + 1, a, b, e =>
    if a < 4503599627370496 * b then flScale fuel (a * 2) b (e - 1)
    else if 9007199254740992 * b ≤ a then flScale fuel a (b * 2) (e + 1)
    else (a, b, e)

/-- Round the nonnegative fraction `a / b` (with `b ≠ 0`) to the nearest
integer, ties to even. -/
def natRoundHalfEven (a b : ℕ) : ℕ :=
  let m := a / b
  let r := a % b
  if 2 * r < b then m
  else if b < 2 * r then m + 1
  else if m % 2 = 0 then m else m + 1

/-- Round a rational to the nearest IEEE-754 binary64 value (round to
nearest, ties to even; normal range, no overflow). -/
def fl (q : ℚ) : ℚ :=
  if q = 0 then 0
  else
    let p := flScale 4400 q.num.natAbs q.den 0
    let m := natRoundHalfEven p.1 p.2.1
    let sm : ℤ := if q.num < 0 then -(m : ℤ) else (m : ℤ)
    if 0 ≤ p.2.2 then Rat.divInt (sm * ((2 ^ p.2.2.toNat : ℕ) : ℤ)) 1
    else Rat.divInt sm ((2 ^ (-p.2.2).toNat : ℕ) : ℤ)

/-- Python float of an `int` (exact below `2^53`, rounded above). -/
def flInt (n : ℤ) : ℚ := fl (Rat.divInt n 1)

/-- Python float addition: exact sum, then rounded. -/
def flAdd (a b : ℚ) : ℚ := fl (qAdd a b)

/-- Python float multiplication: exact product, then rounded. -/
def flMul (a b : ℚ) : ℚ := fl (qMul a b)

/-- The float sum `sum(oi.quantity * float(oi.unit_price) for oi in lines)`:
each term coerces the `int` quantity and the `Decimal` price to float,
multiplies in float, and the running sum adds in float (the `0` start of
`sum` is exact). -/
def floatSumLines (lines : List OrderItem) : ℚ :=
  lines.foldl (fun acc oi => flAdd acc (flMul (flInt oi.quantity) (fl oi.unit_price))) 0

/-! ## The in-memory relational store

One list per table plus the `order_items` autoincrement counter.  Each
function below embeds the corresponding method of
`app/infrastructure/database/repositories.py` (each method there issues its
own commit, so every write is immediately visible). -/

structure DB where
  items : List Item
  orders : List Order
  order_items : List OrderItem
  next_order_item_id : ℤ
deriving DecidableEq

/-- Method `SQLAlchemyOrderRepository.get_by_id`. -/
def orderGetById (db : DB) (order_id : ℤ) : Option Order :=
  db.orders.find? (fun o => o.id == order_id)

/-- Rounding the store applies when a value is written to the
`orders.total_amount` column: the column is `Numeric(12, 2)` (`models.py`)
and the configured backend is PostgreSQL (`config.py`), which rounds every
stored numeric to the declared scale of two decimal places, halves away from
zero.  The float the use case passes for the total is therefore quantized to
whole cents on write. -/
def quantize2 (q : ℚ) : ℚ :=
  let n := q.num * 100
  let b := q.den
  let a := n.natAbs
  let m := a / b
  let rem := a % b
  let mr := if b ≤ 2 * rem then m + 1 else m
  let r : ℤ := if n < 0 then -(mr : ℤ) else (mr : ℤ)
  Rat.divInt r 100

/-- Method `SQLAlchemyOrderRepository.update_total_amount`: sets `total_amount` on
the matching row — the `Numeric(12, 2)` column rounds the written value to
two decimal places (`quantize2`) — and returns `rowcount > 0`. -/
def orderUpdateTotalAmount (db : DB) (order_id : ℤ) (amount : ℚ) : Bool × DB :=
  (db.orders.any (fun o => o.id == order_id),
   { db with orders :=
       db.orders.map (fun o =>
         if o.id == order_id then { o with total_amount := quantize2 amount } else o) })

/-- Method `SQLAlchemyItemRepository.get_by_id`. -/
def itemGetById (db : DB) (item_id : ℤ) : Option Item :=
  db.items.find? (fun it => it.id == item_id)

/-- Method `SQLAlchemyItemRepository.update_quantity`: sets `quantity` on the
matching row, returns `rowcount > 0`. -/
def itemUpdateQuantity (db : DB) (item_id quantity : ℤ) : Bool × DB :=
  (db.items.any (fun it => it.id == item_id),
   { db with items :=
       db.items.map (fun it => if it.id == item_id then { it with quantity := quantity } else it) })

/-- Method `SQLAlchemyItemRepository.update`: overwrites name, quantity and price of
the matching row (the `category_id` column is omitted from the model). -/
def itemUpdate (db : DB) (item : Item) : DB :=
  { db with items :=
      db.items.map (fun it =>
        if it.id == item.id then
          { it with name := item.name, quantity := item.quantity, price := item.price }
        else it) }

/-- Method `SQLAlchemyOrderItemRepository.get_by_order_and_item`.  The source
uses `scalar_one_or_none()`, which raises if several rows match; with unique
line ids and at most one line per pair (the states the claims quantify over)
at most one row matches, and the first match is that row. -/
def oiGetByOrderAndItem (db : DB) (order_id item_id : ℤ) : Option OrderItem :=
  db.order_items.find? (fun oi => oi.order_id == order_id && oi.item_id == item_id)

/-- Method `SQLAlchemyOrderItemRepository.get_by_order_id`. -/
def oiGetByOrderId (db : DB) (order_id : ℤ) : List OrderItem :=
  db.order_items.filter (fun oi => oi.order_id == order_id)

/-- Method `SQLAlchemyOrderItemRepository.create`: inserts the row with the next
autoincrement id (the id carried by the argument entity is `None` in the
source and is replaced by the database), returning the stored row. -/
def oiCreate (db : DB) (oi : OrderItem) : OrderItem × DB :=
  let row := { oi with id := db.next_order_item_id }
  (row,
   { db with order_items := db.order_items ++ [row],
             next_order_item_id := db.next_order_item_id + 1 })

/-- Method `SQLAlchemyOrderItemRepository.update_quantity`: sets `quantity` on the
matching row, returns `rowcount > 0`. -/
def oiUpdateQuantity (db : DB) (order_item_id quantity : ℤ) : Bool × DB :=
  (db.order_items.any (fun oi => oi.id == order_item_id),
   { db with order_items :=
       db.order_items.map (fun oi =>
         if oi.id == order_item_id then { oi with quantity := quantity } else oi) })

/-! ## The use case against the repository interfaces

`AddItemToOrderUseCase` depends only on the abstract repositories of
`app/domain/interfaces.py`; `RepoOps` is that interface, state-threading over
an abstract store `σ`.  Write operations return the `bool` the interface
declares. -/

structure RepoOps (σ : Type) where
  orderGetById : ℤ → σ → Option Order × σ
  itemGetById : ℤ → σ → Option Item × σ
  oiGetByOrderAndItem : ℤ → ℤ → σ → Option OrderItem × σ
  oiCreate : OrderItem → σ → OrderItem × σ
  oiUpdateQuantity : ℤ → ℤ → σ → Bool × σ
  itemUpdateQuantity : ℤ → ℤ → σ → Bool × σ
  oiGetByOrderId : ℤ → σ → List OrderItem × σ
  orderUpdateTotalAmount : ℤ → ℚ → σ → Bool × σ

/-- Method `AddItemToOrderUseCase._calculate_order_total`: re-reads **all** of the
order's lines and sums `quantity * float(unit_price)` in float arithmetic. -/
def calculateOrderTotal {σ : Type} (g : RepoOps σ) (order_id : ℤ) (s : σ) : ℚ × σ :=
  let r := g.oiGetByOrderId order_id s
  (floatSumLines r.1, r.2)

/-- Steps 6–8 of `AddItemToOrderUseCase.execute` after the line item has been
created or updated: decrement the item stock, recompute the order total over
all lines, persist it, and build the success response.  The `bool` results of
the writes are discarded, as in the source. -/
def finishAdd {σ : Type} (g : RepoOps σ) (req : AddItemToOrderRequest) (item : Item)
    (order_item_id : ℤ) (s : σ) : Except PyErr AddItemToOrderResponse × σ :=
  let new_item_quantity := item.quantity - req.quantity
  let u1 := g.itemUpdateQuantity req.item_id new_item_quantity s
  let t := calculateOrderTotal g req.order_id u1.2
  let u2 := g.orderUpdateTotalAmount req.order_id t.1 t.2
  (.ok { success := true,
         message := "Item successfully added to order",
         order_item_id := some order_item_id }, u2.2)

/-- The body of `AddItemToOrderUseCase.execute` (the code inside the `try`):
validate order, item and stock in that order, then upsert the line item and
run the effect sequence. -/
def executeBody {σ : Type} (g : RepoOps σ) (s : σ) (req : AddItemToOrderRequest) :
    Except PyErr AddItemToOrderResponse × σ :=
  let r1 := g.orderGetById req.order_id s
  match r1.1 with
  | none =>
    (.error (.orderNotFound ("Order with ID " ++ toString req.order_id ++ " not found")), r1.2)
  | some _ =>
    let r2 := g.itemGetById req.item_id r1.2
    match r2.1 with
    | none =>
      (.error (.itemNotFound ("Item with ID " ++ toString req.item_id ++ " not found")), r2.2)
    | some item =>
      if item.quantity < req.quantity then
        (.error (.insufficientStock
          ("Insufficient stock for item " ++ item.name ++ ". Available: "
            ++ toString item.quantity ++ ", Requested: " ++ toString req.quantity)), r2.2)
      else
        let r3 := g.oiGetByOrderAndItem req.order_id req.item_id r2.2
        match r3.1 with
        | some existing =>
          let new_quantity := existing.quantity + req.quantity
          let u := g.oiUpdateQuantity existing.id new_quantity r3.2
          finishAdd g req item existing.id u.2
        | none =>
          let line : OrderItem :=
            { id := 0, order_id := req.order_id, item_id := req.item_id,
              quantity := req.quantity, unit_price := item.price }
          let c := g.oiCreate line r3.2
          finishAdd g req item c.1.id c.2

/-- The `except` ladder at the outer edge of `execute`:
`except BusinessException: raise` re-raises domain and business failures
unwrapped; `except Exception as e` wraps anything else into the base
`BusinessException` whose message carries `str(e)`. -/
def wrapBusiness (r : Except PyErr AddItemToOrderResponse) :
    Except PyErr AddItemToOrderResponse :=
  match r with
  | .ok v => .ok v
  | .error e =>
    if e.isBusiness then .error e
    else .error (.businessError ("Failed to add item to order: " ++ e.msg))

/-- Method `AddItemToOrderUseCase.execute`: the `try` body wrapped by the `except`
ladder. -/
def execute {σ : Type} (g : RepoOps σ) (s : σ) (req : AddItemToOrderRequest) :
    Except PyErr AddItemToOrderResponse × σ :=
  let r := executeBody g s req
  (wrapBusiness r.1, r.2)

/-- The SQLAlchemy repositories of `repositories.py` as the concrete
instantiation of the repository interfaces over the in-memory store. -/
def dbOps : RepoOps DB where
  orderGetById := fun oid db => (orderGetById db oid, db)
  itemGetById := fun iid db => (itemGetById db iid, db)
  oiGetByOrderAndItem := fun oid iid db => (oiGetByOrderAndItem db oid iid, db)
  oiCreate := fun oi db => oiCreate db oi
  oiUpdateQuantity := fun oi_id q db => oiUpdateQuantity db oi_id q
  itemUpdateQuantity := fun iid q db => itemUpdateQuantity db iid q
  oiGetByOrderId := fun oid db => (oiGetByOrderId db oid, db)
  orderUpdateTotalAmount := fun oid amt db => orderUpdateTotalAmount db oid amt

/-- The deployed workflow: the use case wired to the SQLAlchemy repositories,
as built in the endpoint. -/
def executeDB (db : DB) (req : AddItemToOrderRequest) :
    Except PyErr AddItemToOrderResponse × DB :=
  execute dbOps db req

/-- The order's lines for one `(order_id, item_id)` pair. -/
def linesFor (db : DB) (order_id item_id : ℤ) : List OrderItem :=
  db.order_items.filter (fun oi => oi.order_id == order_id && oi.item_id == item_id)

/-- The exact fixed-point-decimal total of an order, `ℚ`-exact sum of
`quantity * unit_price` over all its lines — the independently recomputed
value §8 P3 of the spec demands (written from the spec's words, for
comparison with the float total the code computes). -/
def exactOrderTotal (db : DB) (order_id : ℤ) : ℚ :=
  ((oiGetByOrderId db order_id).map (fun oi => (oi.quantity : ℚ) * oi.unit_price)).sum

/-- Well-formedness of the store, guaranteed by the relational schema:
primary keys are unique and below the autoincrement counter. -/
def DB.WF (db : DB) : Prop :=
  (db.order_items.map OrderItem.id).Nodup ∧
  (∀ oi ∈ db.order_items, oi.id < db.next_order_item_id) ∧
  (db.items.map Item.id).Nodup ∧
  (db.orders.map Order.id).Nodup

/-! ## The HTTP boundary

`app/presentation/api/v1/endpoints/orders.py`.  Pydantic validates the body
(`order_id > 0`, `item_id > 0`, `0 < quantity <= 1000`); a validation failure
never reaches the endpoint function — FastAPI answers it with status 422
(there is no custom `RequestValidationError` handler in `app/core/app.py`).
The endpoint then checks path/body consistency and maps the use-case outcome
through its `except` ladder. -/

/-- Schema `AddItemToOrderRequestSchema` with its field constraints. -/
structure AddItemToOrderRequestSchema where
  order_id : ℤ
  item_id : ℤ
  quantity : ℤ
deriving DecidableEq

/-- The pydantic field constraints: `gt=0` on ids, `gt=0, le=1000` on
quantity. -/
def schemaValid (b : AddItemToOrderRequestSchema) : Bool :=
  0 < b.order_id && 0 < b.item_id && 0 < b.quantity && b.quantity ≤ 1000

/-- An HTTP response of the add-item endpoint: the 201 payload or an
`HTTPException` status with detail. -/
inductive HttpResult where
  | created (success : Bool) (message : String) (order_item_id : Option ℤ)
  | httpError (statusCode : ℤ) (detail : String)
deriving DecidableEq

/-- The `POST /{order_id}/items` endpoint: FastAPI request validation, the
path/body order-id consistency check, the use-case call, and the `except`
ladder mapping failures to transport statuses. -/
def addItemToOrderEndpoint (path_order_id : ℤ) (body : AddItemToOrderRequestSchema)
    (db : DB) : HttpResult × DB :=
  if ¬ schemaValid body then
    (.httpError 422 "request validation failed", db)
  else if body.order_id ≠ path_order_id then
    (.httpError 400 ("Order ID mismatch: path=" ++ toString path_order_id
       ++ ", body=" ++ toString body.order_id), db)
  else
    let r := executeDB db { order_id := body.order_id, item_id := body.item_id,
                            quantity := body.quantity }
    match r.1 with
    | .ok resp => (.created resp.success resp.message resp.order_item_id, r.2)
    | .error (.orderNotFound m) => (.httpError 404 m, r.2)
    | .error (.itemNotFound m) => (.httpError 404 m, r.2)
    | .error (.insufficientStock m) => (.httpError 400 m, r.2)
    | .error (.businessError m) => (.httpError 400 m, r.2)
    | .error (.otherError m) => (.httpError 500 ("Internal server error: " ++ m), r.2)

/-- A sequence of calls for one `(order_id, item_id)` pair with varying
quantities: the list of per-call results and the final store. -/
def runSeq (oid iid : ℤ) : DB → List ℤ → List (Except PyErr AddItemToOrderResponse) × DB
  | db, [] => ([], db)
  | db, q :: qs =>
    let r := executeDB db { order_id := oid, item_id := iid, quantity := q }
    let rest := runSeq oid iid r.2 qs
    (r.1 :: rest.1, rest.2)

/-- A sample store: one item (stock 10, price 100.00), one empty order. -/
def sampleDb : DB :=
  { items := [{ id := 1, name := "Widget", quantity := 10, price := Rat.divInt 100 1 }],
    orders := [{ id := 1, client_id := 1, status := "pending", total_amount := 0 }],
    order_items := [],
    next_order_item_id := 1 }

/-- The sample store after adding two units of item 1 to order 1. -/
def sampleDbAfter : DB := (executeDB sampleDb { order_id := 1, item_id := 1, quantity := 2 }).2

/-- A store whose item price is the decimal 0.10, which no binary64 float
represents exactly. -/
def dimePriceDb : DB :=
  { items := [{ id := 1, name := "Widget", quantity := 10, price := Rat.divInt 1 10 }],
    orders := [{ id := 1, client_id := 1, status := "pending", total_amount := 0 }],
    order_items := [],
    next_order_item_id := 1 }

/-- A store on which the float-computed order total is wrong by two cents
even after the column's scale-2 rounding.  Order 1 holds three lines —
quantities 2097152, 1000000011 and −2097152 at prices 67108864.00, 0.01 and
67108864.00 — so the running float sum passes through the binade of `2^47`,
where one addition loses 0.015 to rounding.  Every value fits its column
(`Integer` quantities below `2^31`, `Numeric(10, 2)` prices, final total
within `Numeric(12, 2)`), and each line is creatable by a single workflow
call for its item — the use case accepts negative quantities (see C10). -/
def cexDb : DB :=
  { items :=
      [{ id := 1, name := "Bulk", quantity := 10000000, price := Rat.divInt 6710886400 100 },
       { id := 2, name := "Penny", quantity := 2000000000, price := Rat.divInt 1 100 },
       { id := 3, name := "BulkReturn", quantity := 10000000, price := Rat.divInt 6710886400 100 },
       { id := 4, name := "Gadget", quantity := 5, price := Rat.divInt 100 100 }],
    orders := [{ id := 1, client_id := 1, status := "pending", total_amount := Rat.divInt 1000000011 100 }],
    order_items :=
      [{ id := 1, order_id := 1, item_id := 1, quantity := 2097152, unit_price := Rat.divInt 6710886400 100 },
       { id := 2, order_id := 1, item_id := 2, quantity := 1000000011, unit_price := Rat.divInt 1 100 },
       { id := 3, order_id := 1, item_id := 3, quantity := -2097152, unit_price := Rat.divInt 6710886400 100 }],
    next_order_item_id := 4 }

/-- A gateway double in the style of the repository mocks of
`tests/test_application/test_add_item_to_order.py`, whose write operations
all report that no row was updated (`rowcount = 0`, i.e. `false`). -/
def gwFalse : RepoOps Unit where
  orderGetById := fun _ _ =>
    (some { id := 1, client_id := 1, status := "pending", total_amount := 0 }, ())
  itemGetById := fun _ _ =>
    (some { id := 1, name := "Widget", quantity := 10, price := Rat.divInt 100 1 }, ())
  oiGetByOrderAndItem := fun _ _ _ => (none, ())
  oiCreate := fun oi _ => (oi, ())
  oiUpdateQuantity := fun _ _ _ => (false, ())
  itemUpdateQuantity := fun _ _ _ => (false, ())
  oiGetByOrderId := fun _ _ => ([], ())
  orderUpdateTotalAmount := fun _ _ _ => (false, ())

/-! ## Derived forms of the post-call state -/

/-- Steps 6–8 of the effect sequence as a state transformer: stock decrement,
total recomputation over the lines present after the upsert, total write. -/
def postUpsert (db1 : DB) (req : AddItemToOrderRequest) (item : Item) : DB :=
  let db2 := (itemUpdateQuantity db1 req.item_id (item.quantity - req.quantity)).2
  (orderUpdateTotalAmount db2 req.order_id (floatSumLines (oiGetByOrderId db2 req.order_id))).2

/-- The post-call state on the increment path. -/
def postIncrement (db : DB) (req : AddItemToOrderRequest) (item : Item) (existing : OrderItem) : DB :=
  postUpsert (oiUpdateQuantity db existing.id (existing.quantity + req.quantity)).2 req item

/-- The post-call state on the create path. -/
def postCreate (db : DB) (req : AddItemToOrderRequest) (item : Item) : DB :=
  postUpsert (oiCreate db
    { id := 0, order_id := req.order_id, item_id := req.item_id,
      quantity := req.quantity, unit_price := item.price }).2 req item

/-! ## Theorems -/

lemma qAdd_eq_add (x y : ℚ) : qAdd x y = x + y := by
  have hx : (x.den : ℤ) ≠ 0 := Int.natCast_ne_zero.mpr x.den_nz
  have hy : (y.den : ℤ) ≠ 0 := Int.natCast_ne_zero.mpr y.den_nz
  rw [qAdd, ← Rat.divInt_add_divInt _ _ hx hy, Rat.num_divInt_den, Rat.num_divInt_den]

lemma qMul_eq_mul (x y : ℚ) : qMul x y = x * y := by
  rw [qMul, ← Rat.divInt_mul_divInt', Rat.num_divInt_den, Rat.num_divInt_den]

/-- If a filter keeps exactly one element, `find?` with the same predicate
returns it. -/
lemma find?_of_filter_eq_singleton {α : Type} {p : α → Bool} :
    ∀ {l : List α} {a : α}, l.filter p = [a] → l.find? p = some a := by
  intro l
  induction l with
  | nil => intro a h; simp at h
  | cons x xs ih =>
    intro a h
    by_cases hx : p x
    · rw [List.filter_cons_of_pos hx] at h
      obtain ⟨rfl, -⟩ := List.cons_eq_cons.mp h
      exact List.find?_cons_of_pos _ hx
    · rw [List.filter_cons_of_neg hx] at h
      rw [List.find?_cons_of_neg _ hx]
      exact ih h

/-- An empty filter result means `find?` with the same predicate fails. -/
lemma find?_of_filter_eq_nil {α : Type} {p : α → Bool} {l : List α}
    (h : l.filter p = []) : l.find? p = none := by
  rw [List.find?_eq_none]
  intro x hx
  simpa using List.filter_eq_nil_iff.mp h x hx

/-- Updating all rows with a given key rewrites the row `find?` locates,
provided the update preserves the key. -/
lemma find?_map_update {α : Type} (k : α → ℤ) (f : α → α) (key : ℤ)
    (hf : ∀ x, k (f x) = k x) :
    ∀ {l : List α} {a : α}, l.find? (fun x => k x == key) = some a →
      (l.map (fun x => if k x == key then f x else x)).find? (fun x => k x == key)
        = some (f a) := by
  intro l
  induction l with
  | nil => intro a h; simp [List.find?] at h
  | cons x xs ih =>
    intro a h
    rw [List.find?_cons] at h
    by_cases hx : (k x == key) = true
    · rw [hx] at h
      obtain rfl := Option.some.inj h
      have hfx : (k (f x) == key) = true := by rw [hf]; exact hx
      rw [List.map_cons, if_pos hx, List.find?_cons, hfx]
    · rw [Bool.of_not_eq_true hx] at h
      rw [List.map_cons, if_neg hx, List.find?_cons, Bool.of_not_eq_true hx]
      exact ih h

/-- Updating rows by key leaves the list of keys unchanged, provided the
update preserves the key. -/
lemma map_key_map_update {α : Type} (k : α → ℤ) (f : α → α) (key : ℤ)
    (hf : ∀ x, k (f x) = k x) (l : List α) :
    (l.map (fun x => if k x == key then f x else x)).map k = l.map k := by
  rw [List.map_map]
  refine List.map_congr_left ?_
  intro a _
  by_cases ha : (k a == key) = true <;> simp [Function.comp, ha, hf]

/-! ### Path characterizations of `executeDB` -/

lemma executeDB_orderNotFound {db : DB} {req : AddItemToOrderRequest}
    (h : orderGetById db req.order_id = none) :
    executeDB db req =
      (.error (.orderNotFound ("Order with ID " ++ toString req.order_id ++ " not found")), db) := by
  simp [executeDB, execute, executeBody, dbOps, h, wrapBusiness, PyErr.isBusiness]

lemma executeDB_itemNotFound {db : DB} {req : AddItemToOrderRequest} {o : Order}
    (ho : orderGetById db req.order_id = some o)
    (h : itemGetById db req.item_id = none) :
    executeDB db req =
      (.error (.itemNotFound ("Item with ID " ++ toString req.item_id ++ " not found")), db) := by
  simp [executeDB, execute, executeBody, dbOps, ho, h, wrapBusiness, PyErr.isBusiness]

lemma executeDB_insufficientStock {db : DB} {req : AddItemToOrderRequest} {o : Order} {it : Item}
    (ho : orderGetById db req.order_id = some o)
    (hit : itemGetById db req.item_id = some it)
    (hq : it.quantity < req.quantity) :
    executeDB db req =
      (.error (.insufficientStock
        ("Insufficient stock for item " ++ it.name ++ ". Available: "
          ++ toString it.quantity ++ ", Requested: " ++ toString req.quantity)), db) := by
  simp [executeDB, execute, executeBody, dbOps, ho, hit, hq, wrapBusiness, PyErr.isBusiness]

lemma executeDB_increment {db : DB} {req : AddItemToOrderRequest} {o : Order} {it : Item}
    {existing : OrderItem}
    (ho : orderGetById db req.order_id = some o)
    (hit : itemGetById db req.item_id = some it)
    (hq : ¬ it.quantity < req.quantity)
    (hex : oiGetByOrderAndItem db req.order_id req.item_id = some existing) :
    executeDB db req =
      (.ok { success := true, message := "Item successfully added to order",
             order_item_id := some existing.id },
       postIncrement db req it existing) := by
  simp [executeDB, execute, executeBody, dbOps, ho, hit, hq, hex, wrapBusiness,
    finishAdd, calculateOrderTotal, postIncrement, postUpsert]

lemma executeDB_create {db : DB} {req : AddItemToOrderRequest} {o : Order} {it : Item}
    (ho : orderGetById db req.order_id = some o)
    (hit : itemGetById db req.item_id = some it)
    (hq : ¬ it.quantity < req.quantity)
    (hex : oiGetByOrderAndItem db req.order_id req.item_id = none) :
    executeDB db req =
      (.ok { success := true, message := "Item successfully added to order",
             order_item_id := some db.next_order_item_id },
       postCreate db req it) := by
  simp [executeDB, execute, executeBody, dbOps, ho, hit, hq, hex, wrapBusiness,
    finishAdd, calculateOrderTotal, postCreate, postUpsert, oiCreate]

/-! ### Shape of the post-call states -/

lemma postUpsert_order_items (db1 : DB) (req : AddItemToOrderRequest) (item : Item) :
    (postUpsert db1 req item).order_items = db1.order_items := rfl

lemma postUpsert_items (db1 : DB) (req : AddItemToOrderRequest) (item : Item) :
    (postUpsert db1 req item).items =
      db1.items.map (fun it => if it.id == req.item_id
        then { it with quantity := item.quantity - req.quantity } else it) := rfl

lemma postUpsert_orders (db1 : DB) (req : AddItemToOrderRequest) (item : Item) :
    (postUpsert db1 req item).orders =
      db1.orders.map (fun o => if o.id == req.order_id
        then { o with total_amount := quantize2 (floatSumLines (oiGetByOrderId db1 req.order_id)) }
        else o) := rfl

lemma postUpsert_next (db1 : DB) (req : AddItemToOrderRequest) (item : Item) :
    (postUpsert db1 req item).next_order_item_id = db1.next_order_item_id := rfl

lemma postIncrement_order_items (db : DB) (req : AddItemToOrderRequest) (item : Item)
    (existing : OrderItem) :
    (postIncrement db req item existing).order_items =
      db.order_items.map (fun r => if r.id == existing.id
        then { r with quantity := existing.quantity + req.quantity } else r) := rfl

lemma postCreate_order_items (db : DB) (req : AddItemToOrderRequest) (item : Item) :
    (postCreate db req item).order_items =
      db.order_items ++
        [{ id := db.next_order_item_id, order_id := req.order_id, item_id := req.item_id,
           quantity := req.quantity, unit_price := item.price }] := rfl

lemma postIncrement_items (db : DB) (req : AddItemToOrderRequest) (item : Item)
    (existing : OrderItem) :
    (postIncrement db req item existing).items =
      db.items.map (fun it => if it.id == req.item_id
        then { it with quantity := item.quantity - req.quantity } else it) := rfl

lemma postCreate_items (db : DB) (req : AddItemToOrderRequest) (item : Item) :
    (postCreate db req item).items =
      db.items.map (fun it => if it.id == req.item_id
        then { it with quantity := item.quantity - req.quantity } else it) := rfl

lemma postIncrement_next (db : DB) (req : AddItemToOrderRequest) (item : Item)
    (existing : OrderItem) :
    (postIncrement db req item existing).next_order_item_id = db.next_order_item_id := rfl

lemma postCreate_next (db : DB) (req : AddItemToOrderRequest) (item : Item) :
    (postCreate db req item).next_order_item_id = db.next_order_item_id + 1 := rfl

/-! ### Preservation of well-formedness -/

lemma WF_of_shape {db db' : DB} (h : db.WF)
    (hoi : db'.order_items.map OrderItem.id = db.order_items.map OrderItem.id)
    (hnext : db'.next_order_item_id = db.next_order_item_id)
    (hit : db'.items.map Item.id = db.items.map Item.id)
    (ho : db'.orders.map Order.id = db.orders.map Order.id) : db'.WF := by
  obtain ⟨h1, h2, h3, h4⟩ := h
  refine ⟨hoi ▸ h1, ?_, hit ▸ h3, ho ▸ h4⟩
  intro oi hmem
  have : oi.id ∈ db.order_items.map OrderItem.id := by
    rw [← hoi]; exact List.mem_map_of_mem _ hmem
  obtain ⟨x, hx, hxe⟩ := List.mem_map.mp this
  rw [hnext, ← hxe]
  exact h2 x hx

lemma WF_postUpsert {db1 : DB} {req : AddItemToOrderRequest} {item : Item}
    (h : db1.WF) : (postUpsert db1 req item).WF := by
  refine WF_of_shape h ?_ ?_ ?_ ?_
  · rw [postUpsert_order_items]
  · rw [postUpsert_next]
  · rw [postUpsert_items]
    exact map_key_map_update Item.id
      (fun it => { it with quantity := item.quantity - req.quantity }) req.item_id
      (fun x => rfl) _
  · rw [postUpsert_orders]
    exact map_key_map_update Order.id
      (fun o => { o with
        total_amount := quantize2 (floatSumLines (oiGetByOrderId db1 req.order_id)) }) req.order_id
      (fun x => rfl) _

lemma WF_oiUpdate {db : DB} (oi_id n : ℤ) (h : db.WF) :
    (oiUpdateQuantity db oi_id n).2.WF := by
  refine WF_of_shape h ?_ rfl rfl rfl
  exact map_key_map_update OrderItem.id
    (fun oi => { oi with quantity := n }) oi_id (fun x => rfl) _

lemma WF_oiCreate {db : DB} (oi : OrderItem) (h : db.WF) :
    (oiCreate db oi).2.WF := by
  obtain ⟨h1, h2, h3, h4⟩ := h
  refine ⟨?_, ?_, h3, h4⟩
  · show ((db.order_items ++ [_]).map OrderItem.id).Nodup
    rw [List.map_append]
    rw [List.nodup_append]
    refine ⟨h1, List.nodup_singleton _, ?_⟩
    intro a ha hb
    have hsome : a = db.next_order_item_id := by simpa using hb
    obtain ⟨x, hx, hxe⟩ := List.mem_map.mp ha
    have := h2 x hx
    omega
  · intro x hx
    show x.id < db.next_order_item_id + 1
    rcases List.mem_append.mp hx with hmem | hmem
    · have := h2 x hmem; omega
    · have : x = { oi with id := db.next_order_item_id } := by simpa using hmem
      rw [this]
      show db.next_order_item_id < db.next_order_item_id + 1
      omega

lemma executeDB_WF_increment {db : DB} {req : AddItemToOrderRequest} {item : Item}
    {existing : OrderItem} (h : db.WF) : (postIncrement db req item existing).WF :=
  WF_postUpsert (WF_oiUpdate _ _ h)

lemma executeDB_WF_create {db : DB} {req : AddItemToOrderRequest} {item : Item}
    (h : db.WF) : (postCreate db req item).WF :=
  WF_postUpsert (WF_oiCreate _ h)

/-! ### Exhaustive classification of a call -/

lemma executeDB_cases (db : DB) (req : AddItemToOrderRequest) :
    (orderGetById db req.order_id = none ∧
      executeDB db req = (.error (.orderNotFound
        ("Order with ID " ++ toString req.order_id ++ " not found")), db)) ∨
    (∃ o, orderGetById db req.order_id = some o ∧ itemGetById db req.item_id = none ∧
      executeDB db req = (.error (.itemNotFound
        ("Item with ID " ++ toString req.item_id ++ " not found")), db)) ∨
    (∃ o it, orderGetById db req.order_id = some o ∧ itemGetById db req.item_id = some it ∧
      it.quantity < req.quantity ∧
      executeDB db req = (.error (.insufficientStock
        ("Insufficient stock for item " ++ it.name ++ ". Available: "
          ++ toString it.quantity ++ ", Requested: " ++ toString req.quantity)), db)) ∨
    (∃ o it existing, orderGetById db req.order_id = some o ∧
      itemGetById db req.item_id = some it ∧ ¬ it.quantity < req.quantity ∧
      oiGetByOrderAndItem db req.order_id req.item_id = some existing ∧
      executeDB db req = (.ok { success := true, message := "Item successfully added to order", order_item_id := some existing.id }, postIncrement db req it existing)) ∨
    (∃ o it, orderGetById db req.order_id = some o ∧
      itemGetById db req.item_id = some it ∧ ¬ it.quantity < req.quantity ∧
      oiGetByOrderAndItem db req.order_id req.item_id = none ∧
      executeDB db req = (.ok { success := true, message := "Item successfully added to order", order_item_id := some db.next_order_item_id }, postCreate db req it)) := by
  rcases ho : orderGetById db req.order_id with _ | o
  · exact Or.inl ⟨rfl, executeDB_orderNotFound ho⟩
  rcases hit : itemGetById db req.item_id with _ | it
  · exact Or.inr (Or.inl ⟨o, rfl, rfl, executeDB_itemNotFound ho hit⟩)
  by_cases hq : it.quantity < req.quantity
  · exact Or.inr (Or.inr (Or.inl ⟨o, it, rfl, rfl, hq,
      executeDB_insufficientStock ho hit hq⟩))
  rcases hex : oiGetByOrderAndItem db req.order_id req.item_id with _ | existing
  · exact Or.inr (Or.inr (Or.inr (Or.inr ⟨o, it, rfl, rfl, hq, rfl,
      executeDB_create ho hit hq hex⟩)))
  · exact Or.inr (Or.inr (Or.inr (Or.inl ⟨o, it, existing, rfl, rfl, hq, rfl,
      executeDB_increment ho hit hq hex⟩)))

/-- A failing call leaves the store untouched. -/
lemma executeDB_error_state {db : DB} {req : AddItemToOrderRequest} {e : PyErr} {db' : DB}
    (h : executeDB db req = (.error e, db')) : db' = db := by
  rcases executeDB_cases db req with ⟨-, he⟩ | ⟨o, -, -, he⟩ | ⟨o, it, -, -, -, he⟩ |
    ⟨o, it, ex, -, -, -, -, he⟩ | ⟨o, it, -, -, -, -, he⟩ <;> rw [he] at h <;>
    rw [Prod.mk.injEq] at h
  · exact h.2.symm
  · exact h.2.symm
  · exact h.2.symm
  · exact absurd h.1 (by simp)
  · exact absurd h.1 (by simp)

/-- A successful call went through the increment path or the create path. -/
lemma executeDB_ok_state {db : DB} {req : AddItemToOrderRequest}
    {resp : AddItemToOrderResponse} {db' : DB}
    (h : executeDB db req = (.ok resp, db')) :
    ∃ o it, orderGetById db req.order_id = some o ∧
      itemGetById db req.item_id = some it ∧ ¬ it.quantity < req.quantity ∧
      resp.success = true ∧ resp.message = "Item successfully added to order" ∧
      ((∃ existing, oiGetByOrderAndItem db req.order_id req.item_id = some existing ∧
         resp.order_item_id = some existing.id ∧ db' = postIncrement db req it existing) ∨
       (oiGetByOrderAndItem db req.order_id req.item_id = none ∧
         resp.order_item_id = some db.next_order_item_id ∧ db' = postCreate db req it)) := by
  rcases executeDB_cases db req with ⟨-, he⟩ | ⟨o, -, -, he⟩ | ⟨o, it, -, -, -, he⟩ |
    ⟨o, it, ex, ho, hit, hq, hex, he⟩ | ⟨o, it, ho, hit, hq, hex, he⟩ <;> rw [he] at h <;>
    rw [Prod.mk.injEq] at h
  · exact absurd h.1 (by simp)
  · exact absurd h.1 (by simp)
  · exact absurd h.1 (by simp)
  · obtain ⟨hr, hdb⟩ := h
    obtain rfl := Except.ok.inj hr
    exact ⟨o, it, ho, hit, hq, rfl, rfl, Or.inl ⟨ex, hex, rfl, hdb.symm⟩⟩
  · obtain ⟨hr, hdb⟩ := h
    obtain rfl := Except.ok.inj hr
    exact ⟨o, it, ho, hit, hq, rfl, rfl, Or.inr ⟨hex, rfl, hdb.symm⟩⟩

/-! ### Effect of a call on the `(order_id, item_id)` line set -/

lemma filter_map_update_singleton {p : OrderItem → Bool} {L : OrderItem} (n : ℤ)
    (hp : ∀ (r : OrderItem) (m : ℤ), p { r with quantity := m } = p r) :
    ∀ {l : List OrderItem}, (l.map OrderItem.id).Nodup → l.filter p = [L] →
      (l.map (fun r => if r.id == L.id then { r with quantity := n } else r)).filter p
        = [{ L with quantity := n }] := by
  intro l
  induction l with
  | nil => intro _ hL; simp at hL
  | cons x xs ih =>
    intro hnd hL
    rw [List.map_cons] at hnd
    have hnd1 : (xs.map OrderItem.id).Nodup := (List.nodup_cons.mp hnd).2
    have hxid : x.id ∉ xs.map OrderItem.id := (List.nodup_cons.mp hnd).1
    by_cases hx : p x = true
    · rw [List.filter_cons_of_pos hx] at hL
      obtain ⟨rfl, hnil⟩ := List.cons_eq_cons.mp hL
      have hx' : p { x with quantity := n } = true := by rw [hp]; exact hx
      rw [List.map_cons, if_pos (beq_self_eq_true _), List.filter_cons_of_pos hx']
      congr 1
      rw [List.filter_eq_nil_iff]
      intro a ha
      obtain ⟨y, hy, rfl⟩ := List.mem_map.mp ha
      by_cases hyid : (y.id == x.id) = true
      · exact absurd (beq_iff_eq.mp hyid ▸ List.mem_map_of_mem OrderItem.id hy) hxid
      · rw [if_neg hyid]
        simpa using List.filter_eq_nil_iff.mp hnil y hy
    · rw [List.filter_cons_of_neg hx] at hL
      have hLmem : L ∈ xs := List.mem_of_mem_filter (hL ▸ List.mem_cons_self L [])
      have hxL : ¬ (x.id == L.id) = true := by
        intro he
        exact hxid (beq_iff_eq.mp he ▸ List.mem_map_of_mem OrderItem.id hLmem)
      rw [List.map_cons, if_neg hxL, List.filter_cons_of_neg hx]
      exact ih hnd1 hL

lemma linesFor_postIncrement {db : DB} {req : AddItemToOrderRequest} {item : Item}
    {L : OrderItem} (hwf : db.WF)
    (hL : linesFor db req.order_id req.item_id = [L]) :
    linesFor (postIncrement db req item L) req.order_id req.item_id =
      [{ L with quantity := L.quantity + req.quantity }] := by
  unfold linesFor at hL ⊢
  rw [postIncrement_order_items]
  exact @filter_map_update_singleton
    (fun oi => oi.order_id == req.order_id && oi.item_id == req.item_id) L
    (L.quantity + req.quantity) (fun r m => rfl) _ hwf.1 hL

lemma linesFor_postCreate {db : DB} {req : AddItemToOrderRequest} {item : Item}
    (h0 : linesFor db req.order_id req.item_id = []) :
    linesFor (postCreate db req item) req.order_id req.item_id =
      [{ id := db.next_order_item_id, order_id := req.order_id, item_id := req.item_id,
         quantity := req.quantity, unit_price := item.price }] := by
  unfold linesFor at h0 ⊢
  rw [postCreate_order_items, List.filter_append, h0, List.nil_append]
  simp

lemma runSeq_nil (oid iid : ℤ) (db : DB) : runSeq oid iid db [] = ([], db) := rfl

lemma runSeq_cons (oid iid q : ℤ) (qs : List ℤ) (db : DB) :
    runSeq oid iid db (q :: qs) =
      ((executeDB db { order_id := oid, item_id := iid, quantity := q }).1 ::
        (runSeq oid iid (executeDB db { order_id := oid, item_id := iid, quantity := q }).2 qs).1,
       (runSeq oid iid (executeDB db { order_id := oid, item_id := iid, quantity := q }).2 qs).2) := rfl

/-- Under a sequence of successful same-pair calls, a store holding exactly
one line for the pair keeps exactly one line: same id, same price snapshot,
quantity grown by the sum of the requests, every response naming that id. -/
lemma runSeq_keeps_single_line (oid iid : ℤ) :
    ∀ (qs : List ℤ) (db : DB) (L : OrderItem), db.WF →
      linesFor db oid iid = [L] →
      (∀ r ∈ (runSeq oid iid db qs).1, resultOk r = true) →
      ∃ L' : OrderItem, L'.id = L.id ∧ L'.unit_price = L.unit_price ∧
        L'.quantity = L.quantity + qs.sum ∧
        linesFor (runSeq oid iid db qs).2 oid iid = [L'] ∧
        (runSeq oid iid db qs).2.WF ∧
        ∀ r ∈ (runSeq oid iid db qs).1,
          r = .ok { success := true, message := "Item successfully added to order",
                    order_item_id := some L.id } := by
  intro qs
  induction qs with
  | nil =>
    intro db L hwf hL hok
    exact ⟨L, rfl, rfl, by simp, hL, hwf, by simp [runSeq_nil]⟩
  | cons q qs ih =>
    intro db L hwf hL hok
    rw [runSeq_cons] at hok ⊢
    have hok_head : resultOk (executeDB db { order_id := oid, item_id := iid, quantity := q }).1 = true :=
      hok _ (List.mem_cons_self _ _)
    obtain ⟨resp, hresp⟩ :
        ∃ resp, (executeDB db { order_id := oid, item_id := iid, quantity := q }).1 = .ok resp := by
      rcases hr : (executeDB db { order_id := oid, item_id := iid, quantity := q }).1 with e | resp
      · rw [hr] at hok_head; simp [resultOk] at hok_head
      · exact ⟨resp, rfl⟩
    have hexec : executeDB db { order_id := oid, item_id := iid, quantity := q } =
        (.ok resp, (executeDB db { order_id := oid, item_id := iid, quantity := q }).2) := by
      rw [← hresp]
    obtain ⟨o, it, ho, hit, hq, hsucc, hmsg, hbranch⟩ := executeDB_ok_state hexec
    have hfind : oiGetByOrderAndItem db oid iid = some L := find?_of_filter_eq_singleton hL
    rcases hbranch with ⟨ex, hex, hoid, hdb⟩ | ⟨hex, hoid, hdb⟩
    · -- increment path; the existing line is L
      rw [hfind] at hex
      obtain rfl := Option.some.inj hex
      have hL1 : linesFor (postIncrement db { order_id := oid, item_id := iid, quantity := q } it L)
          oid iid = [{ L with quantity := L.quantity + q }] :=
        linesFor_postIncrement hwf hL
      have hwf1 : (postIncrement db { order_id := oid, item_id := iid, quantity := q } it L).WF :=
        executeDB_WF_increment hwf
      rw [hdb] at hok ⊢
      obtain ⟨L', h1, h2, h3, h4, h5, h6⟩ := ih _ _ hwf1 hL1
        (fun r hr => hok r (List.mem_cons_of_mem _ hr))
      refine ⟨L', h1, h2, ?_, h4, h5, ?_⟩
      · rw [h3, List.sum_cons]
        show L.quantity + q + qs.sum = L.quantity + (q + qs.sum)
        omega
      · intro r hr
        rcases List.mem_cons.mp hr with hr | hr
        · rw [hr, hresp]
          rcases resp with ⟨s, m, roid⟩
          simp only at hsucc hmsg hoid
          rw [hsucc, hmsg, hoid]
        · exact h6 r hr
    · -- create path is impossible: a line for the pair already exists
      rw [hfind] at hex
      exact absurd hex (by simp)

/-- C1: starting from a store with no line for the pair, any nonempty
sequence of successful calls for the same `(order_id, item_id)` pair leaves
exactly one OrderItem for the pair, with quantity the sum of all requested
quantities, and every call in the sequence returned that single line's id
(the new line's id on the create path, the existing line's id on the
increment path). -/
theorem C1_line_uniqueness (db : DB) (oid iid : ℤ) (qs : List ℤ)
    (hwf : db.WF) (h0 : linesFor db oid iid = []) (hne : qs ≠ [])
    (hok : ∀ r ∈ (runSeq oid iid db qs).1, resultOk r = true) :
    ∃ L : OrderItem, linesFor (runSeq oid iid db qs).2 oid iid = [L] ∧
      L.quantity = qs.sum ∧
      ∀ r ∈ (runSeq oid iid db qs).1,
        r = .ok { success := true, message := "Item successfully added to order",
                  order_item_id := some L.id } := by
  rcases qs with _ | ⟨q, qs⟩
  · exact absurd rfl hne
  rw [runSeq_cons] at hok ⊢
  have hok_head : resultOk (executeDB db { order_id := oid, item_id := iid, quantity := q }).1 = true :=
    hok _ (List.mem_cons_self _ _)
  obtain ⟨resp, hresp⟩ :
      ∃ resp, (executeDB db { order_id := oid, item_id := iid, quantity := q }).1 = .ok resp := by
    rcases hr : (executeDB db { order_id := oid, item_id := iid, quantity := q }).1 with e | resp
    · rw [hr] at hok_head; simp [resultOk] at hok_head
    · exact ⟨resp, rfl⟩
  have hexec : executeDB db { order_id := oid, item_id := iid, quantity := q } =
      (.ok resp, (executeDB db { order_id := oid, item_id := iid, quantity := q }).2) := by
    rw [← hresp]
  obtain ⟨o, it, ho, hit, hq, hsucc, hmsg, hbranch⟩ := executeDB_ok_state hexec
  have hfind : oiGetByOrderAndItem db oid iid = none := find?_of_filter_eq_nil h0
  rcases hbranch with ⟨ex, hex, hoid, hdb⟩ | ⟨hex, hoid, hdb⟩
  · rw [hfind] at hex
    exact absurd hex (by simp)
  · have hL1 : linesFor (postCreate db { order_id := oid, item_id := iid, quantity := q } it)
        oid iid =
        [{ id := db.next_order_item_id, order_id := oid, item_id := iid,
           quantity := q, unit_price := it.price }] :=
      linesFor_postCreate h0
    have hwf1 : (postCreate db { order_id := oid, item_id := iid, quantity := q } it).WF :=
      executeDB_WF_create hwf
    rw [hdb] at hok ⊢
    obtain ⟨L', h1, h2, h3, h4, h5, h6⟩ := runSeq_keeps_single_line oid iid qs _ _ hwf1 hL1
      (fun r hr => hok r (List.mem_cons_of_mem _ hr))
    refine ⟨L', h4, ?_, ?_⟩
    · rw [h3, List.sum_cons]
    · intro r hr
      rcases List.mem_cons.mp hr with hr | hr
      · rw [hr, hresp]
        rcases resp with ⟨s, m, roid⟩
        simp only at hsucc hmsg hoid
        rw [hsucc, hmsg, hoid, h1]
      · rw [h6 r hr, h1]

/-! ### The claims -/

/-- C2: for every successful AddItemToOrder call, the item's post-call stock
equals its pre-call stock minus the requested quantity; the checked
precondition (pre-call stock ≥ requested quantity) holds on every successful
call, and under it the resulting stock is never negative. -/
theorem C2_stock_decrement {db : DB} {req : AddItemToOrderRequest}
    {resp : AddItemToOrderResponse} {db' : DB} {it : Item}
    (h : executeDB db req = (.ok resp, db'))
    (hit : itemGetById db req.item_id = some it) :
    itemGetById db' req.item_id = some { it with quantity := it.quantity - req.quantity } ∧
    req.quantity ≤ it.quantity ∧ 0 ≤ it.quantity - req.quantity := by
  obtain ⟨o, it2, ho, hit2, hq, -, -, hbranch⟩ := executeDB_ok_state h
  rw [hit] at hit2
  obtain rfl := Option.some.inj hit2
  have hfind : itemGetById db' req.item_id =
      some { it with quantity := it.quantity - req.quantity } := by
    rcases hbranch with ⟨ex, -, -, rfl⟩ | ⟨-, -, rfl⟩
    · unfold itemGetById
      rw [postIncrement_items]
      exact find?_map_update Item.id
        (fun x => { x with quantity := it.quantity - req.quantity }) req.item_id
        (fun x => rfl) hit
    · unfold itemGetById
      rw [postCreate_items]
      exact find?_map_update Item.id
        (fun x => { x with quantity := it.quantity - req.quantity }) req.item_id
        (fun x => rfl) hit
  exact ⟨hfind, by omega, by omega⟩

set_option maxRecDepth 8000 in
/-- Witness for C2: on the sample store, adding 2 units of the item with
stock 10 leaves stock 8, and both inequalities hold at those numbers. -/
theorem C2_stock_decrement_witness :
    itemGetById sampleDbAfter 1 =
      some { id := 1, name := "Widget", quantity := 10 - 2, price := Rat.divInt 100 1 } ∧
    (2 : ℤ) ≤ 10 ∧ (0 : ℤ) ≤ 10 - 2 :=
  C2_stock_decrement
    (by decide :
      executeDB sampleDb { order_id := 1, item_id := 1, quantity := 2 } =
        (.ok { success := true, message := "Item successfully added to order",
               order_item_id := some 1 }, sampleDbAfter))
    (by decide :
      itemGetById sampleDb (1 : ℤ) =
        some { id := 1, name := "Widget", quantity := 10, price := Rat.divInt 100 1 })

/-- C5: a call that fails (order not found, item not found, or insufficient
stock) returns the store exactly as it was: no Item, Order or OrderItem row
changes. -/
theorem C5_failed_call_changes_nothing {db : DB} {req : AddItemToOrderRequest}
    {e : PyErr} {db' : DB} (h : executeDB db req = (.error e, db')) :
    db' = db ∧ db'.items = db.items ∧ db'.orders = db.orders ∧
    db'.order_items = db.order_items := by
  obtain rfl := executeDB_error_state h
  exact ⟨rfl, rfl, rfl, rfl⟩

set_option maxRecDepth 8000 in
/-- Witness for C5: a call naming an order id that does not exist fails and
leaves the sample store untouched. -/
theorem C5_failed_call_changes_nothing_witness :
    (executeDB sampleDb { order_id := 2, item_id := 1, quantity := 5 }).2 = sampleDb ∧
    (executeDB sampleDb { order_id := 2, item_id := 1, quantity := 5 }).2.items = sampleDb.items ∧
    (executeDB sampleDb { order_id := 2, item_id := 1, quantity := 5 }).2.orders = sampleDb.orders ∧
    (executeDB sampleDb { order_id := 2, item_id := 1, quantity := 5 }).2.order_items
      = sampleDb.order_items :=
  C5_failed_call_changes_nothing
    (by decide :
      executeDB sampleDb { order_id := 2, item_id := 1, quantity := 5 } =
        (.error (.orderNotFound ("Order with ID " ++ toString (2 : ℤ) ++ " not found")),
         (executeDB sampleDb { order_id := 2, item_id := 1, quantity := 5 }).2))

/-- C4: the validation sequence is fixed and short-circuiting, and each
failure is exactly the matching typed one: `OrderNotFound` iff the order is
missing; otherwise `ItemNotFound` iff the item is missing; otherwise
`InsufficientStock` iff stock < requested (with a message reporting both the
requested and the available amount); otherwise the call raises no failure. -/
theorem C4_validation_order (db : DB) (req : AddItemToOrderRequest) :
    ((∃ m, (executeDB db req).1 = .error (.orderNotFound m)) ↔
      orderGetById db req.order_id = none) ∧
    ((∃ m, (executeDB db req).1 = .error (.itemNotFound m)) ↔
      (orderGetById db req.order_id ≠ none ∧ itemGetById db req.item_id = none)) ∧
    ((∃ m, (executeDB db req).1 = .error (.insufficientStock m)) ↔
      (∃ o it, orderGetById db req.order_id = some o ∧ itemGetById db req.item_id = some it ∧
        it.quantity < req.quantity)) ∧
    ((∃ resp, (executeDB db req).1 = .ok resp) ↔
      (∃ o it, orderGetById db req.order_id = some o ∧ itemGetById db req.item_id = some it ∧
        ¬ it.quantity < req.quantity)) ∧
    (∀ o it, orderGetById db req.order_id = some o → itemGetById db req.item_id = some it →
      it.quantity < req.quantity →
      (executeDB db req).1 = .error (.insufficientStock
        ("Insufficient stock for item " ++ it.name ++ ". Available: "
          ++ toString it.quantity ++ ", Requested: " ++ toString req.quantity))) := by
  rcases executeDB_cases db req with ⟨ho, he⟩ | ⟨o, ho, hit, he⟩ | ⟨o, it, ho, hit, hq, he⟩ |
    ⟨o, it, ex, ho, hit, hq, hex, he⟩ | ⟨o, it, ho, hit, hq, hex, he⟩ <;>
    rw [he] <;>
    refine ⟨?_, ?_, ?_, ?_, ?_⟩
  · simp [ho]
  · simp [ho]
  · simp [ho]
  · simp [ho]
  · intro o it hosome
    rw [ho] at hosome
    exact absurd hosome (by simp)
  · simp [ho, hit]
  · simp [ho, hit]
  · simp [ho, hit]
  · simp [ho, hit]
  · intro o2 it2 ho2 hit2
    rw [hit] at hit2
    exact absurd hit2 (by simp)
  · simp [ho, hit, hq]
  · simp [ho, hit]
  · constructor
    · intro; exact ⟨o, it, ho, hit, hq⟩
    · intro; exact ⟨_, rfl⟩
  · constructor
    · rintro ⟨resp, hresp⟩
      exact absurd hresp (by simp)
    · rintro ⟨o2, it2, ho2, hit2, hq2⟩
      rw [ho] at ho2; rw [hit] at hit2
      obtain rfl := Option.some.inj ho2
      obtain rfl := Option.some.inj hit2
      exact absurd hq (by omega)
  · intro o2 it2 ho2 hit2 hq2
    rw [ho] at ho2; rw [hit] at hit2
    obtain rfl := Option.some.inj ho2
    obtain rfl := Option.some.inj hit2
    rfl
  · simp [ho, hit]
  · simp [ho, hit]
  · constructor
    · rintro ⟨m, hm⟩
      exact absurd hm (by simp)
    · rintro ⟨o2, it2, ho2, hit2, hq2⟩
      rw [ho] at ho2; rw [hit] at hit2
      obtain rfl := Option.some.inj ho2
      obtain rfl := Option.some.inj hit2
      exact absurd hq2 hq
  · constructor
    · intro; exact ⟨o, it, ho, hit, hq⟩
    · intro; exact ⟨_, rfl⟩
  · intro o2 it2 ho2 hit2 hq2
    rw [ho] at ho2; rw [hit] at hit2
    obtain rfl := Option.some.inj ho2
    obtain rfl := Option.some.inj hit2
    exact absurd hq2 hq
  · simp [ho, hit]
  · simp [ho, hit]
  · constructor
    · rintro ⟨m, hm⟩
      exact absurd hm (by simp)
    · rintro ⟨o2, it2, ho2, hit2, hq2⟩
      rw [ho] at ho2; rw [hit] at hit2
      obtain rfl := Option.some.inj ho2
      obtain rfl := Option.some.inj hit2
      exact absurd hq2 hq
  · constructor
    · intro; exact ⟨o, it, ho, hit, hq⟩
    · intro; exact ⟨_, rfl⟩
  · intro o2 it2 ho2 hit2 hq2
    rw [ho] at ho2; rw [hit] at hit2
    obtain rfl := Option.some.inj ho2
    obtain rfl := Option.some.inj hit2
    exact absurd hq2 hq

set_option maxRecDepth 8000 in
/-- Witness for C1: two successful calls (quantities 2 then 3) on the sample
store end with exactly one line of quantity 5, and both calls returned its
id. -/
theorem C1_line_uniqueness_witness :
    ∃ L : OrderItem, linesFor (runSeq 1 1 sampleDb [2, 3]).2 1 1 = [L] ∧
      L.quantity = [2, 3].sum ∧
      ∀ r ∈ (runSeq 1 1 sampleDb [2, 3]).1,
        r = .ok { success := true, message := "Item successfully added to order",
                  order_item_id := some L.id } :=
  C1_line_uniqueness sampleDb 1 1 [2, 3]
    (by unfold DB.WF; decide) (by decide) (by decide) (by decide)

/-- C6: an OrderItem's `unit_price` is the Item's price at the moment the
line is created, and no later call changes it: every successful call maps
each pre-existing line to a line with the same id and the same `unit_price`
(the increment path writes only `quantity`), and the item repository's
`update` — the operation that changes an Item's price — does not touch the
`order_items` table at all. -/
theorem C6_price_snapshot :
    (∀ (db : DB) (req : AddItemToOrderRequest) (resp : AddItemToOrderResponse)
       (db' : DB) (it : Item),
      executeDB db req = (.ok resp, db') →
      itemGetById db req.item_id = some it →
      linesFor db req.order_id req.item_id = [] →
      linesFor db' req.order_id req.item_id =
        [{ id := db.next_order_item_id, order_id := req.order_id, item_id := req.item_id,
           quantity := req.quantity, unit_price := it.price }]) ∧
    (∀ (db : DB) (req : AddItemToOrderRequest) (resp : AddItemToOrderResponse)
       (db' : DB) (L : OrderItem),
      executeDB db req = (.ok resp, db') →
      L ∈ db.order_items →
      ∃ L' ∈ db'.order_items, L'.id = L.id ∧ L'.unit_price = L.unit_price ∧
        L'.order_id = L.order_id ∧ L'.item_id = L.item_id) ∧
    (∀ (db : DB) (it : Item), (itemUpdate db it).order_items = db.order_items) := by
  refine ⟨?_, ?_, fun db it => rfl⟩
  · intro db req resp db' it h hit h0
    obtain ⟨o, it2, ho, hit2, hq, -, -, hbranch⟩ := executeDB_ok_state h
    rw [hit] at hit2
    obtain rfl := Option.some.inj hit2
    rcases hbranch with ⟨ex, hex, -, rfl⟩ | ⟨hex, -, rfl⟩
    · have hnone : oiGetByOrderAndItem db req.order_id req.item_id = none :=
        find?_of_filter_eq_nil h0
      rw [hnone] at hex
      exact absurd hex (by simp)
    · exact linesFor_postCreate h0
  · intro db req resp db' L h hL
    obtain ⟨o, it, ho, hit, hq, -, -, hbranch⟩ := executeDB_ok_state h
    rcases hbranch with ⟨ex, hex, -, rfl⟩ | ⟨hex, -, rfl⟩
    · refine ⟨if L.id == ex.id then { L with quantity := ex.quantity + req.quantity } else L, ?_, ?_⟩
      · rw [postIncrement_order_items]
        exact List.mem_map_of_mem _ hL
      · by_cases hid : (L.id == ex.id) = true <;> simp [hid]
    · refine ⟨L, ?_, rfl, rfl, rfl, rfl⟩
      rw [postCreate_order_items]
      exact List.mem_append_left _ hL

set_option maxRecDepth 8000 in
/-- Witness for C6: creating a line for the dime-priced item snapshots the
price 0.10; the line keeps id 1 and its price after a second call; updating
the item row touches no order line. -/
theorem C6_price_snapshot_witness :
    linesFor sampleDbAfter 1 1 =
      [{ id := 1, order_id := 1, item_id := 1, quantity := 2, unit_price := Rat.divInt 100 1 }] ∧
    (itemUpdate sampleDb { id := 1, name := "Widget", quantity := 10, price := Rat.divInt 999 1 }).order_items = sampleDb.order_items := by
  constructor
  · exact C6_price_snapshot.1 sampleDb { order_id := 1, item_id := 1, quantity := 2 }
      { success := true, message := "Item successfully added to order", order_item_id := some 1 }
      sampleDbAfter { id := 1, name := "Widget", quantity := 10, price := Rat.divInt 100 1 }
      (by decide) (by decide) (by decide)
  · exact C6_price_snapshot.2.2 sampleDb
      { id := 1, name := "Widget", quantity := 10, price := Rat.divInt 999 1 }

/-- C8: domain failures (`OrderNotFound`, `ItemNotFound`,
`InsufficientStock`) and base business failures pass the workflow's outer
`except` ladder unwrapped; every exception outside the `BusinessException`
hierarchy is wrapped into the single generic business failure whose message
carries the original cause; and `execute` is exactly its body composed with
that ladder. -/
theorem C8_exception_wrapping :
    (∀ v : AddItemToOrderResponse, wrapBusiness (.ok v) = .ok v) ∧
    (∀ m, wrapBusiness (.error (.orderNotFound m)) = .error (.orderNotFound m)) ∧
    (∀ m, wrapBusiness (.error (.itemNotFound m)) = .error (.itemNotFound m)) ∧
    (∀ m, wrapBusiness (.error (.insufficientStock m)) = .error (.insufficientStock m)) ∧
    (∀ m, wrapBusiness (.error (.businessError m)) = .error (.businessError m)) ∧
    (∀ m, wrapBusiness (.error (.otherError m)) =
      .error (.businessError ("Failed to add item to order: " ++ m))) ∧
    (∀ (σ : Type) (g : RepoOps σ) (s : σ) (req : AddItemToOrderRequest),
      execute g s req = (wrapBusiness (executeBody g s req).1, (executeBody g s req).2)) :=
  ⟨fun _ => rfl, fun _ => rfl, fun _ => rfl, fun _ => rfl, fun _ => rfl, fun _ => rfl,
   fun _ _ _ _ => rfl⟩

/-- C9: the workflow never inspects the booleans returned by the gateway
write operations: over any gateways (in particular ones whose writes all
report that no row was updated), once the three validations pass, `execute`
returns `success = true` with the confirmation message. -/
theorem C9_write_results_ignored {σ : Type} (g : RepoOps σ) (s : σ)
    (req : AddItemToOrderRequest) (o : Order) (s1 : σ) (it : Item) (s2 : σ)
    (h1 : g.orderGetById req.order_id s = (some o, s1))
    (h2 : g.itemGetById req.item_id s1 = (some it, s2))
    (h3 : ¬ it.quantity < req.quantity) :
    ∃ oiid : ℤ, (execute g s req).1 =
      .ok { success := true, message := "Item successfully added to order",
            order_item_id := some oiid } := by
  simp only [execute, executeBody, h1, h2]
  rw [if_neg h3]
  rcases hex : (g.oiGetByOrderAndItem req.order_id req.item_id s2).1 with _ | ex
  · simp only [hex, finishAdd, calculateOrderTotal, wrapBusiness]
    exact ⟨_, rfl⟩
  · simp only [hex, finishAdd, calculateOrderTotal, wrapBusiness]
    exact ⟨ex.id, rfl⟩

/-- Witness for C9: against gateways whose every write reports `false` (no
row updated), the call still reports success — the lost writes are invisible
to the caller. -/
theorem C9_write_results_ignored_witness :
    ∃ oiid : ℤ, (execute gwFalse () { order_id := 1, item_id := 1, quantity := 2 }).1 =
      .ok { success := true, message := "Item successfully added to order",
            order_item_id := some oiid } :=
  C9_write_results_ignored gwFalse () { order_id := 1, item_id := 1, quantity := 2 }
    { id := 1, client_id := 1, status := "pending", total_amount := 0 } ()
    { id := 1, name := "Widget", quantity := 10, price := Rat.divInt 100 1 } ()
    rfl rfl (by decide)

/-- C10: the workflow itself never checks that the requested quantity is
positive: with quantity ≤ 0, an existing order and item, and stock ≥ the
(non-positive) quantity, the call succeeds; on the create path the stored
line's quantity equals the non-positive request (breaking invariant I1), and
a negative request increases the item's stock; only the transport schema
enforces `0 < quantity ≤ 1000`. -/
theorem C10_no_positivity_check :
    (∀ (db : DB) (req : AddItemToOrderRequest) (o : Order) (it : Item),
      req.quantity ≤ 0 → orderGetById db req.order_id = some o →
      itemGetById db req.item_id = some it → req.quantity ≤ it.quantity →
      ∃ resp db', executeDB db req = (.ok resp, db') ∧ resp.success = true) ∧
    (∀ (db : DB) (req : AddItemToOrderRequest) (o : Order) (it : Item),
      req.quantity ≤ 0 → orderGetById db req.order_id = some o →
      itemGetById db req.item_id = some it → req.quantity ≤ it.quantity →
      linesFor db req.order_id req.item_id = [] →
      executeDB db req = (.ok { success := true, message := "Item successfully added to order", order_item_id := some db.next_order_item_id }, postCreate db req it) ∧
      linesFor (postCreate db req it) req.order_id req.item_id =
        [{ id := db.next_order_item_id, order_id := req.order_id, item_id := req.item_id,
           quantity := req.quantity, unit_price := it.price }] ∧
      itemGetById (postCreate db req it) req.item_id =
        some { it with quantity := it.quantity - req.quantity } ∧
      (req.quantity < 0 → it.quantity < it.quantity - req.quantity)) ∧
    (∀ req : AddItemToOrderRequest, req.quantity ≤ 0 →
      schemaValid { order_id := req.order_id, item_id := req.item_id, quantity := req.quantity } = false) := by
  refine ⟨?_, ?_, ?_⟩
  · intro db req o it hq0 ho hit hstock
    have hq : ¬ it.quantity < req.quantity := by omega
    rcases hex : oiGetByOrderAndItem db req.order_id req.item_id with _ | ex
    · exact ⟨_, _, executeDB_create ho hit hq hex, rfl⟩
    · exact ⟨_, _, executeDB_increment ho hit hq hex, rfl⟩
  · intro db req o it hq0 ho hit hstock h0
    have hq : ¬ it.quantity < req.quantity := by omega
    have hfind : oiGetByOrderAndItem db req.order_id req.item_id = none :=
      find?_of_filter_eq_nil h0
    refine ⟨executeDB_create ho hit hq hfind, linesFor_postCreate h0, ?_, by omega⟩
    unfold itemGetById
    rw [postCreate_items]
    exact find?_map_update Item.id
      (fun x => { x with quantity := it.quantity - req.quantity }) req.item_id
      (fun x => rfl) hit
  · intro req hq0
    have hdq : decide (0 < req.quantity) = false := decide_eq_false (by omega)
    simp [schemaValid, hdq]

set_option maxRecDepth 8000 in
/-- Witness for C10: a request for quantity −1 on the sample store succeeds,
stores a line with quantity −1, raises the stock from 10 to 11, and the
transport schema rejects that same request. -/
theorem C10_no_positivity_check_witness :
    (executeDB sampleDb { order_id := 1, item_id := 1, quantity := -1 } =
      (.ok { success := true, message := "Item successfully added to order",
             order_item_id := some 1 },
       postCreate sampleDb { order_id := 1, item_id := 1, quantity := -1 }
         { id := 1, name := "Widget", quantity := 10, price := Rat.divInt 100 1 }) ∧
     linesFor (postCreate sampleDb { order_id := 1, item_id := 1, quantity := -1 }
         { id := 1, name := "Widget", quantity := 10, price := Rat.divInt 100 1 }) 1 1 =
       [{ id := 1, order_id := 1, item_id := 1, quantity := -1,
          unit_price := Rat.divInt 100 1 }] ∧
     itemGetById (postCreate sampleDb { order_id := 1, item_id := 1, quantity := -1 }
         { id := 1, name := "Widget", quantity := 10, price := Rat.divInt 100 1 }) 1 =
       some { id := 1, name := "Widget", quantity := 10 - -1, price := Rat.divInt 100 1 } ∧
     ((-1 : ℤ) < 0 → (10 : ℤ) < 10 - -1)) ∧
    schemaValid { order_id := 1, item_id := 1, quantity := -1 } = false :=
  ⟨C10_no_positivity_check.2.1 sampleDb { order_id := 1, item_id := 1, quantity := -1 }
     { id := 1, client_id := 1, status := "pending", total_amount := 0 }
     { id := 1, name := "Widget", quantity := 10, price := Rat.divInt 100 1 }
     (by decide) (by decide) (by decide) (by decide) (by decide),
   C10_no_positivity_check.2.2 { order_id := 1, item_id := 1, quantity := -1 } (by decide)⟩

set_option maxRecDepth 8000 in
/-- Witness for C4: requesting 11 units with stock 10 produces exactly the
typed `InsufficientStock` failure whose message reports both amounts. -/
theorem C4_validation_order_witness :
    (executeDB sampleDb { order_id := 1, item_id := 1, quantity := 11 }).1 =
      .error (.insufficientStock ("Insufficient stock for item " ++ "Widget"
        ++ ". Available: " ++ toString (10 : ℤ) ++ ", Requested: " ++ toString (11 : ℤ))) :=
  (C4_validation_order sampleDb { order_id := 1, item_id := 1, quantity := 11 }).2.2.2.2
    { id := 1, client_id := 1, status := "pending", total_amount := 0 }
    { id := 1, name := "Widget", quantity := 10, price := Rat.divInt 100 1 }
    (by decide) (by decide) (by decide)

lemma wrapBusiness_ne_otherError (r : Except PyErr AddItemToOrderResponse) (m : String) :
    wrapBusiness r ≠ .error (.otherError m) := by
  rcases r with e | v
  · rcases e <;> simp [wrapBusiness, PyErr.isBusiness]
  · simp [wrapBusiness]

/-- Counterexample for C7: a request whose quantity lies outside 1..1000
(here 0) is rejected by FastAPI request validation with status 422, not the
400 the claim states. -/
theorem C7_quantity_bound_gives_422 :
    addItemToOrderEndpoint 1 { order_id := 1, item_id := 1, quantity := 0 } sampleDb =
      (.httpError 422 "request validation failed", sampleDb) ∧ (422 : ℤ) ≠ 400 :=
  ⟨by decide, by decide⟩

/-- C7 (amended): the boundary maps outcomes as the code does — schema-bound
violations (ids or quantity out of range) are answered by request validation
with 422; a body/path order-id mismatch gives 400; `OrderNotFound` and
`ItemNotFound` give 404; `InsufficientStock` and generic business failures
(the form in which wrapped unexpected workflow failures arrive) give 400; and
no workflow outcome reaches the endpoint's 500 branch, which is reserved for
exceptions outside the business hierarchy. -/
theorem C7_endpoint_status_mapping (pid : ℤ) (body : AddItemToOrderRequestSchema) (db : DB) :
    (schemaValid body = false →
      addItemToOrderEndpoint pid body db = (.httpError 422 "request validation failed", db)) ∧
    (schemaValid body = true → body.order_id ≠ pid →
      addItemToOrderEndpoint pid body db =
        (.httpError 400 ("Order ID mismatch: path=" ++ toString pid
          ++ ", body=" ++ toString body.order_id), db)) ∧
    (∀ m, schemaValid body = true → body.order_id = pid →
      (executeDB db { order_id := body.order_id, item_id := body.item_id, quantity := body.quantity }).1 = .error (.orderNotFound m) →
      (addItemToOrderEndpoint pid body db).1 = .httpError 404 m) ∧
    (∀ m, schemaValid body = true → body.order_id = pid →
      (executeDB db { order_id := body.order_id, item_id := body.item_id, quantity := body.quantity }).1 = .error (.itemNotFound m) →
      (addItemToOrderEndpoint pid body db).1 = .httpError 404 m) ∧
    (∀ m, schemaValid body = true → body.order_id = pid →
      (executeDB db { order_id := body.order_id, item_id := body.item_id, quantity := body.quantity }).1 = .error (.insufficientStock m) →
      (addItemToOrderEndpoint pid body db).1 = .httpError 400 m) ∧
    (∀ m, schemaValid body = true → body.order_id = pid →
      (executeDB db { order_id := body.order_id, item_id := body.item_id, quantity := body.quantity }).1 = .error (.businessError m) →
      (addItemToOrderEndpoint pid body db).1 = .httpError 400 m) ∧
    (∀ resp, schemaValid body = true → body.order_id = pid →
      (executeDB db { order_id := body.order_id, item_id := body.item_id, quantity := body.quantity }).1 = .ok resp →
      (addItemToOrderEndpoint pid body db).1 =
        .created resp.success resp.message resp.order_item_id) ∧
    (∀ m, (executeDB db { order_id := body.order_id, item_id := body.item_id, quantity := body.quantity }).1 ≠ .error (.otherError m)) := by
  refine ⟨?_, ?_, ?_, ?_, ?_, ?_, ?_, ?_⟩
  · intro h
    simp [addItemToOrderEndpoint, h]
  · intro h hne
    simp [addItemToOrderEndpoint, h, hne]
  · intro m h hpid hr
    subst hpid
    simp [addItemToOrderEndpoint, h, hr]
  · intro m h hpid hr
    subst hpid
    simp [addItemToOrderEndpoint, h, hr]
  · intro m h hpid hr
    subst hpid
    simp [addItemToOrderEndpoint, h, hr]
  · intro m h hpid hr
    subst hpid
    simp [addItemToOrderEndpoint, h, hr]
  · intro resp h hpid hr
    subst hpid
    simp [addItemToOrderEndpoint, h, hr]
  · intro m
    exact wrapBusiness_ne_otherError _ m

set_option maxRecDepth 8000 in
/-- Witness for C7 (amended): with stock 10, requesting 11 units is answered
with status 400 and the insufficient-stock message, and requesting quantity 0
is answered with status 422. -/
theorem C7_endpoint_status_mapping_witness :
    (addItemToOrderEndpoint 1 { order_id := 1, item_id := 1, quantity := 11 } sampleDb).1 =
      .httpError 400 ("Insufficient stock for item " ++ "Widget"
        ++ ". Available: " ++ toString (10 : ℤ) ++ ", Requested: " ++ toString (11 : ℤ)) ∧
    addItemToOrderEndpoint 1 { order_id := 1, item_id := 1, quantity := 0 } sampleDb =
      (.httpError 422 "request validation failed", sampleDb) :=
  ⟨(C7_endpoint_status_mapping 1 { order_id := 1, item_id := 1, quantity := 11 } sampleDb).2.2.2.2.1
      ("Insufficient stock for item " ++ "Widget"
        ++ ". Available: " ++ toString (10 : ℤ) ++ ", Requested: " ++ toString (11 : ℤ))
      (by decide) (by decide) (by decide),
   (C7_endpoint_status_mapping 1 { order_id := 1, item_id := 1, quantity := 0 } sampleDb).1
      (by decide)⟩

set_option maxRecDepth 8000 in
/-- C3, evaluated against the code: the use case recomputes the total as the
binary64 float sum `sum(oi.quantity * float(oi.unit_price))` over all lines,
and the `Numeric(12, 2)` column rounds that float to whole cents on write.
At small magnitudes the rounding absorbs the float error — adding 3 units
priced 0.10 persists exactly 0.30, the exact decimal sum — but the claim
fails in general: on `cexDb`, whose running float sum passes through the
binade of `2^47`, the successful call (1 unit of item 4 at 1.00) computes
the float total 10000001.125 and persists 10000001.13, while the exact
fixed-point-decimal sum over the order's four lines is 10000001.11.  The
re-derivation is a full pass over every line, but in float, not in the exact
decimal arithmetic the claim demands. -/
theorem C3_persisted_total_not_exact_decimal :
    ((orderGetById (executeDB dimePriceDb { order_id := 1, item_id := 1, quantity := 3 }).2 1).map
      Order.total_amount = some (Rat.divInt 3 10) ∧
     exactOrderTotal (executeDB dimePriceDb { order_id := 1, item_id := 1, quantity := 3 }).2 1 =
      Rat.divInt 3 10) ∧
    resultOk (executeDB cexDb { order_id := 1, item_id := 4, quantity := 1 }).1 = true ∧
    (orderGetById (executeDB cexDb { order_id := 1, item_id := 4, quantity := 1 }).2 1).map
      Order.total_amount = some (Rat.divInt 1000000113 100) ∧
    exactOrderTotal (executeDB cexDb { order_id := 1, item_id := 4, quantity := 1 }).2 1 =
      Rat.divInt 1000000111 100 ∧
    Rat.divInt 1000000113 100 ≠ Rat.divInt 1000000111 100 := by
  refine ⟨⟨by decide, ?_⟩, by decide, by decide, ?_, by decide⟩
  · have hlines : oiGetByOrderId
        (executeDB dimePriceDb { order_id := 1, item_id := 1, quantity := 3 }).2 1 =
        [{ id := 1, order_id := 1, item_id := 1, quantity := 3, unit_price := Rat.divInt 1 10 }] := by
      decide
    rw [exactOrderTotal, hlines]
    simp only [List.map_cons, List.map_nil, List.sum_cons, List.sum_nil, Rat.divInt_eq_div]
    push_cast
    norm_num
  · have hlines : oiGetByOrderId
        (executeDB cexDb { order_id := 1, item_id := 4, quantity := 1 }).2 1 =
        [{ id := 1, order_id := 1, item_id := 1, quantity := 2097152, unit_price := Rat.divInt 6710886400 100 },
         { id := 2, order_id := 1, item_id := 2, quantity := 1000000011, unit_price := Rat.divInt 1 100 },
         { id := 3, order_id := 1, item_id := 3, quantity := -2097152, unit_price := Rat.divInt 6710886400 100 },
         { id := 4, order_id := 1, item_id := 4, quantity := 1, unit_price := Rat.divInt 100 100 }] := by
      decide
    rw [exactOrderTotal, hlines]
    simp only [List.map_cons, List.map_nil, List.sum_cons, List.sum_nil, Rat.divInt_eq_div]
    push_cast
    norm_num

end InventoryService
